import Mathlib

/-!
Verification of the `niriss_reduction` repository (files `nirhiss/utils.py` and
`niriss/plotting.py`) against its natural-language specification.

Modelling conventions, used throughout:

* Python/numpy floating-point values are modelled by `PyFloat := Option ℚ`,
  where `none` stands for IEEE NaN and `some q` for an ordinary (exactly
  representable) value.  Infinities are not modelled; every place where numpy
  could produce one is noted in a comment and is unreachable in the theorems
  proved here.
* `np.sqrt` is not rational-valued, so its numeric action on non-negative
  arguments is abstracted as a parameter `s : ℚ → ℚ` that theorems assume to
  be strictly monotone on non-negatives (true of the real square root, and the
  only property of `np.sqrt` the code's behaviour depends on, since the
  square roots computed here are only ever compared by `np.argmin`).  NaN and
  negative arguments are handled concretely by `npSqrt`, mirroring numpy
  (`sqrt NaN = NaN`, `sqrt x = NaN` for `x < 0`).
* numpy arrays are Lean lists (2-D arrays: lists of row lists); `astropy`
  tables are association lists from column names to column data.
* Python name resolution matters in this module: two functions reference
  names that are bound neither as locals nor as module globals, and so raise
  `NameError` at run time.  Module-level name lookup is modelled explicitly
  by `resolveGlobal` against the list of names actually bound at top level of
  `nirhiss/utils.py`.
* Fallible code returns `Except String α`; the `String` carries the Python
  exception class of the failure.
-/

/-- A Python/numpy float: `none` is NaN, `some q` an ordinary value. -/
abbrev PyFloat := Option ℚ

/-- A 2-D numpy array (one detector frame): a list of rows. -/
abbrev Frame := List (List PyFloat)

/-- Elementwise subtraction with IEEE NaN propagation. -/
def qfSub (a b : PyFloat) : PyFloat :=
  match a, b with
  | some x, some y => some (x - y)
  | _, _ => none

/-- Multiplication with IEEE NaN propagation. -/
def qfMul (a b : PyFloat) : PyFloat :=
  match a, b with
  | some x, some y => some (x * y)
  | _, _ => none

/-- Multiplication of an array element by an ordinary scalar. -/
def qfMulC (a : PyFloat) (v : ℚ) : PyFloat :=
  match a with
  | some x => some (x * v)
  | none => none

/-- Division by a Python `int`.  numpy's division by zero yields NaN for a
zero numerator and ±inf otherwise; the only division by zero reachable in
this code has a zero numerator (an empty region sums to `0.0`), so the model
returns NaN for every zero denominator. -/
def qfDivZ (a : PyFloat) (d : ℤ) : PyFloat :=
  match a with
  | some q => if d = 0 then none else some (q / (d : ℚ))
  | none => none

/-- Division of two array values.  numpy's `x / 0.0` yields NaN or ±inf with
a warning; the zero-divisor branch is modelled as NaN and is unreachable in
the theorems below (they assume a non-zero normalising median). -/
def qfDiv (a b : PyFloat) : PyFloat :=
  match a, b with
  | some x, some y => if y = 0 then none else some (x / y)
  | _, _ => none

/-- `np.sqrt`, with the numeric action on non-negative arguments supplied as
`s` (assumed strictly monotone on non-negatives by the theorems below): maps
NaN to NaN and negative values to NaN, as numpy does. -/
def npSqrt (s : ℚ → ℚ) (a : PyFloat) : PyFloat :=
  match a with
  | none => none
  | some q => if q < 0 then none else some (s q)

/-- `np.nansum` of a 1-D array: the sum of the non-NaN entries (`0` when all
entries are NaN or the array is empty, exactly as numpy). -/
def nansum (l : List PyFloat) : PyFloat :=
  some ((l.filterMap id).sum)

/-- `np.nansum` of a 2-D array (summing every non-NaN entry). -/
def nansum2 (fr : Frame) : PyFloat :=
  some ((fr.map (fun row => (row.filterMap id).sum)).sum)

/-- Index of the first minimal element of a list of ordinary values
(numpy's `argmin` keeps the earliest index on ties, since it only replaces
the running minimum on a strict decrease). -/
def firstMinIdx : List ℚ → ℕ
  | [] => 0
  | [_] => 0
  | a :: b :: rest =>
    let j := firstMinIdx (b :: rest)
    if a ≤ (b :: rest).getD j 0 then 0 else j + 1

/-- `np.argmin`: when the array contains a NaN, numpy returns the index of
the first NaN; otherwise the index of the first minimum. -/
def np_argmin (l : List PyFloat) : ℕ :=
  match l.findIdx? (fun x => x.isNone) with
  | some i => i
  | none => firstMinIdx (l.filterMap id)

/-- `np.nanmedian`: the median of the non-NaN entries (NaN when there are
none, as numpy warns and returns). -/
def nanmedian (l : List PyFloat) : PyFloat :=
  let xs := l.filterMap id
  let n := xs.length
  if n = 0 then none
  else
    let srt := xs.insertionSort (· ≤ ·)
    if n % 2 = 1 then some (srt.getD (n / 2) 0)
    else some ((srt.getD (n / 2 - 1) 0 + srt.getD (n / 2) 0) / 2)

/-- Python slicing `l[a:b]` for non-negative in-range-or-clamped bounds
(the claims only exercise non-negative bounds, where Python clamps to the
list length and yields `[]` whenever `a ≥ b`). -/
def pySlice (l : List α) (a b : ℕ) : List α :=
  (l.take b).drop a

/-- The 2-D slice `arr[x1:x2, y1:y2]`. -/
def regionOf (fr : Frame) (x1 x2 y1 y2 : ℕ) : Frame :=
  (pySlice fr x1 x2).map (fun row => pySlice row y1 y2)

/-- The names bound at module level of `nirhiss/utils.py` once the module has
loaded: its imports (`np`, `tqdm`, `Table`, `ts`), `__all__`, and its five
function definitions.  Neither `integrations` nor `wavelength` is among
them, nor are they Python builtins. -/
def nirhissUtilsGlobals : List String :=
  ["np", "tqdm", "Table", "ts", "__all__",
   "scaling_image_regions", "bin_at_resolution", "chromatic_writer",
   "exotep_to_ers_format", "get_MAD_sigma"]

/-- Python global-name resolution: a name read inside a function body but
assigned nowhere in that body is looked up among the module globals (then the
builtins); a miss raises `NameError`. -/
def resolveGlobal (env : List String) (n : String) : Except String Unit :=
  if n ∈ env then Except.ok ()
  else Except.error ("NameError: name " ++ n ++ " is not defined")

/-- The inner loop of `scaling_image_regions` for one frame `j`:
`rms[i] = np.sqrt(np.nansum(diff**2)/shape)` with
`diff = integrations[j][x1:x2,y1:y2] - bkg[x1:x2,y1:y2]*v`, followed by
`vals[np.argmin(rms)]`. -/
def bestScaleFor (s : ℚ → ℚ) (frame bkg : Frame) (x1 x2 y1 y2 : ℕ)
    (vals : List ℚ) : ℚ :=
  let shape : ℤ := ((x2 : ℤ) - (x1 : ℤ)) * ((y2 : ℤ) - (y1 : ℤ))
  let fr := regionOf frame x1 x2 y1 y2
  let br := regionOf bkg x1 x2 y1 y2
  let rms := vals.map (fun v =>
    let diff := List.zipWith
      (fun frow brow => List.zipWith (fun a b => qfSub a (qfMulC b v)) frow brow)
      fr br
    npSqrt s (qfDivZ (nansum2 (diff.map (fun row => row.map (fun d => qfMul d d)))) shape))
  vals.getD (np_argmin rms) 0

/-- The loop `for j in tqdm(range(length)): scaling_vals[j] = ...`, reading
frame `j` by index (a Python `IndexError` when `j` is out of bounds, which
happens exactly when `test` is set and fewer than 5 frames are supplied). -/
def scaleLoop (s : ℚ → ℚ) (frames : List Frame) (bkg : Frame)
    (x1 x2 y1 y2 : ℕ) (vals : List ℚ) : List ℕ → Except String (List ℚ)
  | [] => Except.ok []
  | j :: rest =>
    match frames[j]? with
    | none => Except.error "IndexError: index is out of bounds"
    | some frame =>
      match scaleLoop s frames bkg x1 x2 y1 y2 vals rest with
      | Except.error e => Except.error e
      | Except.ok tail =>
        Except.ok (bestScaleFor s frame bkg x1 x2 y1 y2 vals :: tail)

/-- The body of `scaling_image_regions` read with the docstring's spelling:
the name `integrations` taken to denote the first parameter (spelled
`integraions` in the source `def` line).  Output: the list printed by
`print(scaling_vals[:5])` when `test` is set (`none` otherwise), paired with
the returned `np.nanmedian(scaling_vals)`.  `scaling_vals` starts as
`np.zeros(len(integrations))` and the loop writes only its first `length`
entries, so the untouched entries stay `0`. -/
def scaling_image_regions_body (s : ℚ → ℚ) (integraions : List Frame)
    (bkg : Frame) (x1 x2 y1 y2 : ℕ) (vals : List ℚ) (test : Bool) :
    Except String (Option (List ℚ) × PyFloat) :=
  let n := integraions.length
  let length := if test then 5 else n
  match scaleLoop s integraions bkg x1 x2 y1 y2 vals (List.range length) with
  | Except.error e => Except.error e
  | Except.ok computed =>
    let scaling_vals := computed ++ List.replicate (n - length) 0
    let printed := if test then some (scaling_vals.take 5) else none
    Except.ok (printed, nanmedian (scaling_vals.map some))

/-- `scaling_image_regions` as written in `nirhiss/utils.py`: its `def` line
spells the first parameter `integraions`, while line 47 evaluates
`len(integrations)`.  `integrations` is assigned nowhere in the function, so
Python resolves it as a module global, and `nirhiss/utils.py` binds no such
global: the call raises `NameError` before any frame is touched.  The `ok`
branch is unreachable; it carries the body read with the docstring's
spelling (see `scaling_image_regions_body`). -/
def scaling_image_regions (s : ℚ → ℚ) (integraions : List Frame)
    (bkg : Frame) (x1 x2 y1 y2 : ℕ) (vals : List ℚ) (test : Bool) :
    Except String (Option (List ℚ) × PyFloat) :=
  match resolveGlobal nirhissUtilsGlobals "integrations" with
  | Except.error e => Except.error e
  | Except.ok _ =>
    scaling_image_regions_body s integraions bkg x1 x2 y1 y2 vals test

/-- A 5×5 frame whose every pixel equals `3.0`. -/
def c1Frame : Frame :=
  List.replicate 5 (List.replicate 5 (some (3 : ℚ)))

/-- The concrete scenario of the spec: 10 frames of shape 5×5, every pixel
equal to `3.0`. -/
def c1Frames : List Frame := List.replicate 10 c1Frame

/-- The all-ones 5×5 background of the concrete scenario. -/
def c1Bkg : Frame := List.replicate 5 (List.replicate 5 (some (1 : ℚ)))

/-- The candidate grid `[0, 1, 2, 3, 4, 5]` of the concrete scenario. -/
def c1Vals : List ℚ := [0, 1, 2, 3, 4, 5]

/-! ## `chromatic_writer` and the `.npy` store -/

/-- The quadruple `[time, wavelength, flux, var]` that `chromatic_writer`
passes to `np.save`. -/
structure NpStack where
  time : List PyFloat
  wavelength : List PyFloat
  flux : List (List PyFloat)
  var : List (List PyFloat)
deriving DecidableEq

/-- The file system visible to `np.save`/`np.load`, as a path-indexed store.
`.npy` serialization of the saved arrays is modelled as exact (the spec's
premise: the format is lossless for the stored values). -/
abbrev NpyStore := List (String × NpStack)

/-- `np.save(path, data)`: a single non-atomic overwrite of `path`. -/
def np_save (fs : NpyStore) (path : String) (data : NpStack) : NpyStore :=
  (path, data) :: fs

/-- `np.load(path)`: the most recently saved value at `path`. -/
def np_load (fs : NpyStore) (path : String) : Option NpStack :=
  (fs.find? (fun e => e.1 = path)).map (fun e => e.2)

/-- `chromatic_writer(filename, time, wavelength, flux, var)`:
`np.save(filename+'.npy', [time, wavelength, flux, var])`, then returns
`None` (modelled by returning only the updated store). -/
def chromatic_writer (fs : NpyStore) (filename : String)
    (time wavelength : List PyFloat) (flux var : List (List PyFloat)) :
    NpyStore :=
  np_save fs (filename ++ ".npy") ⟨time, wavelength, flux, var⟩

/-! ## `exotep_to_ers_format` -/

/-- An `astropy` table read from CSV: an association list from column names
to column data.  (astropy enforces that all columns have equal length;
the model's `numRows` reads the first column's length.) -/
abbrev PyTable := List (String × List PyFloat)

/-- `table[name]`: astropy raises `KeyError` for a missing column. -/
def getCol (t : PyTable) (name : String) : Except String (List PyFloat) :=
  match t.find? (fun c => c.1 = name) with
  | some c => Except.ok c.2
  | none => Except.error ("KeyError: " ++ name)

/-- `len(table)`: the number of rows. -/
def numRows (t : PyTable) : ℕ :=
  match t with
  | [] => 0
  | c :: _ => c.2.length

/-- One row of the output table
`['wave', 'wave_err', 'dppm', 'dppm_err', 'order']`. -/
structure ErsRow where
  wave : PyFloat
  wave_err : PyFloat
  dppm : PyFloat
  dppm_err : PyFloat
  order : ℤ
deriving DecidableEq

/-- The loop `for i in range(len(t)): tab.add_row([t['wave'][i],
t['waveMin'][i], t['yval'][i], t['yerrLow'][i], order])`.  When the table
has no rows the loop body never runs, so a missing column goes unnoticed;
otherwise the first iteration's column lookups raise `KeyError` for a
missing column.  (astropy guarantees equal column lengths, so the in-range
`getD` default is never taken for a table read from CSV.) -/
def addRowsFrom (t : PyTable) (order : ℤ) : Except String (List ErsRow) :=
  if numRows t = 0 then Except.ok []
  else do
    let w ← getCol t "wave"
    let wm ← getCol t "waveMin"
    let yv ← getCol t "yval"
    let ye ← getCol t "yerrLow"
    Except.ok ((List.range (numRows t)).map (fun i =>
      ⟨w.getD i none, wm.getD i none, yv.getD i none, ye.getD i none, order⟩))

/-- Keep the entries of `l` whose mask bit is set (numpy boolean-mask
indexing `column[mask]`). -/
def maskFilter (mask : List Bool) (l : List α) : List α :=
  (mask.zip l).filterMap (fun p => if p.1 then some p.2 else none)

/-- `table[mask]`: every column filtered by the boolean mask. -/
def filterTable (t : PyTable) (mask : List Bool) : PyTable :=
  t.map (fun c => (c.1, maskFilter mask c.2))

/-- The elementwise comparison `x < q` (False for NaN, as in numpy). -/
def qfLtC (a : PyFloat) (q : ℚ) : Bool :=
  match a with
  | some x => decide (x < q)
  | none => false

/-- `exotep_to_ers_format(filename1, filename2, filename)`, taking the two
parsed CSV tables as inputs and producing the rows of the returned table
(the final `tab.write(filename, ...)` CSV overwrite is not modelled; the
claims concern the returned table).  Order of effects follows the source:
the order-1 loop over `table1`, then `short = table2[table2['wave'] < 0.9]`,
then the order-2 loop over `short`. -/
def exotep_to_ers_format (table1 table2 : PyTable) :
    Except String (List ErsRow) := do
  let rows1 ← addRowsFrom table1 1
  let w2 ← getCol table2 "wave"
  let mask := w2.map (fun x => qfLtC x (9/10))
  let short := filterTable table2 mask
  let rows2 ← addRowsFrom short 2
  Except.ok (rows1 ++ rows2)

/-- A row of an exotep CSV export carrying the expected columns. -/
structure ExoRow where
  wave : PyFloat
  waveMin : PyFloat
  yval : PyFloat
  yerrLow : PyFloat
deriving DecidableEq

/-- A table "with the expected columns": the four expected columns, with
the data of `rows`. -/
def toTable (rows : List ExoRow) : PyTable :=
  [("wave", rows.map (fun r => r.wave)),
   ("waveMin", rows.map (fun r => r.waveMin)),
   ("yval", rows.map (fun r => r.yval)),
   ("yerrLow", rows.map (fun r => r.yerrLow))]

/-! ## The delegation wrappers -/

/-- `bin_at_resolution(wavelengths, depths, R, method)` as written in
`nirhiss/utils.py`: line 137 evaluates
`ts.utils.bin_at_resolution(wavelength, depths, R=R, method=method)`.
The argument name `wavelength` is assigned nowhere in the function, so it
resolves as a module global; `nirhiss/utils.py` binds no such global, and
the call raises `NameError` while evaluating the argument, before the
external library is ever invoked.  The unreachable `ok` branch carries the
docstring's evident intent (forwarding the parameter `wavelengths` and
projecting the first three components of the external result). -/
def bin_at_resolution
    (tsBinAtResolution : List PyFloat → List PyFloat → ℕ → String →
      (List PyFloat × List PyFloat × List PyFloat))
    (wavelengths depths : List PyFloat) (R : ℕ) (method : String) :
    Except String (List PyFloat × List PyFloat × List PyFloat) :=
  match resolveGlobal nirhissUtilsGlobals "wavelength" with
  | Except.error e => Except.error e
  | Except.ok _ =>
    let outputs := tsBinAtResolution wavelengths depths R method
    Except.ok outputs

/-- `get_MAD_sigma(x, median)`: computes
`mad = ts.utils.get_mad_sigma(x, median)` through the external library and
then falls off the end of the function body, so Python returns `None`
(modelled as `Option.none` in the function's return position; `some` would
carry a returned value). -/
def get_MAD_sigma (tsGetMadSigma : List PyFloat → PyFloat → PyFloat)
    (x : List PyFloat) (median : PyFloat) : Option PyFloat :=
  let mad := tsGetMadSigma x median
  none

/-! ## `stacked_transits` (`niriss/plotting.py`) -/

/-- The elementwise comparison `q ≤ x` (False for NaN). -/
def qfGeC (a : PyFloat) (q : ℚ) : Bool :=
  match a with
  | some x => decide (q ≤ x)
  | none => false

/-- The elementwise comparison `x ≤ q` (False for NaN). -/
def qfLeC (a : PyFloat) (q : ℚ) : Bool :=
  match a with
  | some x => decide (x ≤ q)
  | none => false

/-- `np.nansum(variance, axis=0)` at channel `i`: the NaN-aware sum of
column `i` over time. -/
def colNansum (variance : List (List PyFloat)) (i : ℕ) : PyFloat :=
  nansum (variance.map (fun row => row.getD i none))

/-- `q = np.where((wavelength >= center-0.5) & (wavelength <= center+0.5) &
(np.nansum(variance, axis=0) < 1e7))[0]` with the source's fixed
`wave_offset = 0.5` window and `1e7` noise threshold. -/
def selectChannels (wavelength : List PyFloat)
    (variance : List (List PyFloat)) (center : ℚ) : List ℕ :=
  (List.range wavelength.length).filter (fun i =>
    qfGeC (wavelength.getD i none) (center - 1/2) &&
    qfLeC (wavelength.getD i none) (center + 1/2) &&
    qfLtC (colNansum variance i) 10000000)

/-- What one iteration of the `for center in centers` loop hands to
`ax.errorbar`, plus the printed rms and the offset in force. -/
structure TransitCurve where
  series : List PyFloat
  yerr : List PyFloat
  rmsPrinted : PyFloat
  offsetUsed : ℚ
deriving DecidableEq

/-- `spec = np.nansum(flux[:,q], axis=1)/1e6` with
`q = selectChannels wavelength variance center`. -/
def specOf (wavelength : List PyFloat) (flux variance : List (List PyFloat))
    (center : ℚ) : List PyFloat :=
  flux.map (fun row =>
    qfDiv (nansum ((selectChannels wavelength variance center).map
      (fun i => row.getD i none))) (some 1000000))

/-- `yerr = np.sqrt(np.nansum(variance[:,q]**2, axis=1))/1e6`. -/
def yerrOf (s : ℚ → ℚ) (wavelength : List PyFloat)
    (variance : List (List PyFloat)) (center : ℚ) : List PyFloat :=
  variance.map (fun row =>
    qfDiv (npSqrt s (nansum ((selectChannels wavelength variance center).map
      (fun i => qfMul (row.getD i none) (row.getD i none))))) (some 1000000))

/-- One iteration of the loop body of `stacked_transits` for a given
`center` and current `offset`: the printed
`rms = np.sqrt(np.nansum(spec[:time_ind]**2)/time_ind)`, both series
divided by `np.nanmedian(spec)`, and the plotted y-values `spec - offset`.
(The `ax.text` annotation and colour lookup are pure rendering and are not
modelled.) -/
def transitCurveFor (s : ℚ → ℚ) (wavelength : List PyFloat)
    (flux variance : List (List PyFloat)) (time_ind : ℕ)
    (center offset : ℚ) : TransitCurve :=
  let spec := specOf wavelength flux variance center
  let yerr := yerrOf s wavelength variance center
  let rms := npSqrt s (qfDivZ
    (nansum ((spec.take time_ind).map (fun v => qfMul v v))) (time_ind : ℤ))
  let med := nanmedian spec
  let yerrN := yerr.map (fun v => qfDiv v med)
  let specN := spec.map (fun v => qfDiv v med)
  ⟨specN.map (fun v => qfSub v (some offset)), yerrN, rms, offset⟩

/-- The `for center in centers` loop, with `offset -= offset_delta` at the
end of each iteration. -/
def stackedLoop (s : ℚ → ℚ) (wavelength : List PyFloat)
    (flux variance : List (List PyFloat)) (offset_delta : ℚ)
    (time_ind : ℕ) : List ℚ → ℚ → List TransitCurve
  | [], _ => []
  | c :: rest, offset =>
    transitCurveFor s wavelength flux variance time_ind c offset ::
      stackedLoop s wavelength flux variance offset_delta time_ind rest
        (offset - offset_delta)

/-- `stacked_transits(time, wavelength, flux, variance, centers, offset,
offset_delta, ..., time_ind, ...)`: the list of error-bar series the routine
draws, one per requested wavelength center.  The `time` array only supplies
the x-coordinates of the plot and does not influence any drawn y-value or
offset. -/
def stacked_transits (s : ℚ → ℚ) (time wavelength : List PyFloat)
    (flux variance : List (List PyFloat)) (centers : List ℚ)
    (offset offset_delta : ℚ) (time_ind : ℕ) : List TransitCurve :=
  stackedLoop s wavelength flux variance offset_delta time_ind centers offset

/-! ## Theorems -/

/-- Claim C10: every call to `scaling_image_regions` raises an
undefined-name error before computing anything, because the parameter is
spelled `integraions` while the body references `integrations`, a name
bound in no enclosing scope; the function never returns a scaling value. -/
theorem scaling_image_regions_always_nameerror (s : ℚ → ℚ)
    (frames : List Frame) (bkg : Frame) (x1 x2 y1 y2 : ℕ)
    (vals : List ℚ) (test : Bool) :
    scaling_image_regions s frames bkg x1 x2 y1 y2 vals test =
      Except.error "NameError: name integrations is not defined" := rfl

/-- Claim C9: every call to `bin_at_resolution` fails with an
undefined-name error before returning, because its body references
`wavelength` while the declared parameter is `wavelengths`; it never
returns the three-element tuple of binned outputs, and the external
library is never invoked. -/
theorem bin_at_resolution_always_nameerror
    (ext : List PyFloat → List PyFloat → ℕ → String →
      (List PyFloat × List PyFloat × List PyFloat))
    (wavelengths depths : List PyFloat) (R : ℕ) (method : String) :
    bin_at_resolution ext wavelengths depths R method =
      Except.error "NameError: name wavelength is not defined" := rfl

/-- Claim C8: `get_MAD_sigma` computes the MAD sigma through the external
library but never returns it: whatever the external routine yields on
whatever input, the call returns `None`. -/
theorem get_MAD_sigma_returns_none (ext : List PyFloat → PyFloat → PyFloat)
    (x : List PyFloat) (median : PyFloat) :
    get_MAD_sigma ext x median = none := rfl

/-- Claim C6: reloading a file written by `chromatic_writer` yields exactly
the original (time, wavelength, flux, variance) arrays, on any prior store
contents (the write overwrites). -/
theorem chromatic_writer_roundtrip (fs : NpyStore) (filename : String)
    (time wavelength : List PyFloat) (flux var : List (List PyFloat)) :
    np_load (chromatic_writer fs filename time wavelength flux var)
        (filename ++ ".npy") = some ⟨time, wavelength, flux, var⟩ := by
  unfold chromatic_writer np_save np_load
  rw [List.find?_cons_of_pos _ (by simp)]
  rfl

/-- A one-row exotep table whose wavelength column is misspelled `wav`, so
the expected column `wave` is missing. -/
def c5Table1 : PyTable :=
  [("wav", [some 1]), ("waveMin", [some 1]), ("yval", [some 1]),
   ("yerrLow", [some 1])]

/-- An order-2 exotep table with the expected columns and no rows. -/
def c5Table2 : PyTable := toTable []

/-- Claim C5 (code evaluated at the failing input): on a table missing the
expected `wave` column, `exotep_to_ers_format` surfaces astropy's bare
`KeyError` from the column lookup, not a schema-mismatch error naming the
problem. -/
theorem exotep_missing_column_keyerror :
    exotep_to_ers_format c5Table1 c5Table2 =
      Except.error "KeyError: wave" := rfl

/-! ### Helper lemmas for the scaling search -/

lemma filterMap_id_replicate_some (a : ℚ) :
    ∀ n, (List.replicate n (some a)).filterMap id = List.replicate n a := by
  intro n
  induction n with
  | zero => rfl
  | succ k ih => simp [List.replicate_succ, ih]

lemma firstMinIdx_replicate (x : ℚ) : ∀ n, firstMinIdx (List.replicate n x) = 0 := by
  intro n
  induction n with
  | zero => rfl
  | succ m ih =>
    cases m with
    | zero => rfl
    | succ k =>
      rw [show List.replicate (k+2) x = x :: x :: List.replicate k x by
        simp [List.replicate_succ]]
      rw [firstMinIdx]
      have ih' : firstMinIdx (x :: List.replicate k x) = 0 := by
        rwa [List.replicate_succ] at ih
      rw [ih']
      simp

lemma np_argmin_replicate_some (x : ℚ) (n : ℕ) :
    np_argmin (List.replicate n (some x)) = 0 := by
  unfold np_argmin
  rw [show (List.replicate n (some x)).findIdx? (fun v => v.isNone) = none from
    List.findIdx?_eq_none_iff.mpr (by intro y hy; simp [List.eq_of_mem_replicate hy])]
  rw [filterMap_id_replicate_some]
  exact firstMinIdx_replicate x n

lemma insertionSort_replicate (a : ℚ) (n : ℕ) :
    (List.replicate n a).insertionSort (· ≤ ·) = List.replicate n a := by
  have hp := List.perm_insertionSort (α := ℚ) (· ≤ ·) (List.replicate n a)
  rw [List.eq_replicate_iff]
  exact ⟨by simpa using hp.length_eq,
    fun b hb => List.eq_of_mem_replicate (hp.subset hb)⟩

lemma nanmedian_replicate_some (a : ℚ) (n : ℕ) (h : 0 < n) :
    nanmedian (List.replicate n (some a)) = some a := by
  simp only [nanmedian, filterMap_id_replicate_some, List.length_replicate,
    insertionSort_replicate]
  rw [if_neg (Nat.pos_iff_ne_zero.mp h)]
  have hg : ∀ i, i < n → (List.replicate n a).getD i 0 = a := by
    intro i hi
    rw [List.getD_eq_getElem _ _ (by simpa using hi)]
    simp
  have hhalf : n / 2 < n := Nat.div_lt_self h (by norm_num)
  by_cases hodd : n % 2 = 1
  · rw [if_pos hodd, hg _ hhalf]
  · rw [if_neg hodd, hg _ hhalf, hg _ (lt_of_le_of_lt (Nat.sub_le _ _) hhalf)]
    norm_num

lemma scaleLoop_eq_map (s : ℚ → ℚ) (frames : List Frame) (bkg : Frame)
    (x1 x2 y1 y2 : ℕ) (vals : List ℚ) :
    ∀ idxs : List ℕ, (∀ j ∈ idxs, j < frames.length) →
      scaleLoop s frames bkg x1 x2 y1 y2 vals idxs =
        Except.ok (idxs.map
          (fun j => bestScaleFor s (frames.getD j []) bkg x1 x2 y1 y2 vals)) := by
  intro idxs
  induction idxs with
  | nil => intro _; rfl
  | cons j rest ih =>
    intro h
    have hj : j < frames.length := h j (List.mem_cons_self j rest)
    have hget : frames[j]? = some (frames.getD j []) := by
      rw [List.getElem?_eq_getElem hj, List.getD_eq_getElem?_getD,
        List.getElem?_eq_getElem hj]
      rfl
    rw [scaleLoop, hget, ih (fun m hm => h m (List.mem_cons_of_mem j hm))]
    rfl

lemma scaling_body_notest (s : ℚ → ℚ) (frames : List Frame) (bkg : Frame)
    (x1 x2 y1 y2 : ℕ) (vals : List ℚ) :
    scaling_image_regions_body s frames bkg x1 x2 y1 y2 vals false =
      Except.ok (none, nanmedian (((List.range frames.length).map
        (fun j => bestScaleFor s (frames.getD j []) bkg x1 x2 y1 y2 vals)).map
          some)) := by
  simp only [scaling_image_regions_body, Bool.false_eq_true, if_false]
  rw [scaleLoop_eq_map s frames bkg x1 x2 y1 y2 vals _
    (fun j hj => List.mem_range.mp hj)]
  simp

lemma scaling_body_test (s : ℚ → ℚ) (frames : List Frame) (bkg : Frame)
    (x1 x2 y1 y2 : ℕ) (vals : List ℚ) (h : 5 ≤ frames.length) :
    scaling_image_regions_body s frames bkg x1 x2 y1 y2 vals true =
      Except.ok (some ((List.range 5).map
          (fun j => bestScaleFor s (frames.getD j []) bkg x1 x2 y1 y2 vals)),
        nanmedian ((((List.range 5).map
          (fun j => bestScaleFor s (frames.getD j []) bkg x1 x2 y1 y2 vals)) ++
          List.replicate (frames.length - 5) 0).map some)) := by
  simp only [scaling_image_regions_body, if_true]
  rw [scaleLoop_eq_map s frames bkg x1 x2 y1 y2 vals _
    (fun j hj => lt_of_lt_of_le (List.mem_range.mp hj) h)]
  refine Eq.trans (rfl :
    _ = Except.ok (some (List.take 5 ((List.range 5).map
          (fun j => bestScaleFor s (frames.getD j []) bkg x1 x2 y1 y2 vals) ++
          List.replicate (frames.length - 5) 0)),
        nanmedian ((((List.range 5).map
          (fun j => bestScaleFor s (frames.getD j []) bkg x1 x2 y1 y2 vals)) ++
          List.replicate (frames.length - 5) 0).map some))) ?_
  rw [List.take_left' (by simp)]

lemma c1_map_scales (s : ℚ → ℚ) (x1 x2 y1 y2 : ℕ) (vals : List ℚ) :
    (List.range c1Frames.length).map
      (fun j => bestScaleFor s (c1Frames.getD j []) c1Bkg x1 x2 y1 y2 vals) =
    List.replicate 10 (bestScaleFor s c1Frame c1Bkg x1 x2 y1 y2 vals) := by
  apply List.eq_replicate_iff.mpr
  refine ⟨by simp [c1Frames], ?_⟩
  intro b hb
  obtain ⟨j, hj, rfl⟩ := List.mem_map.mp hb
  have hjn : j < 10 := by simpa [c1Frames] using List.mem_range.mp hj
  congr 1
  rw [List.getD_eq_getElem _ _ (by simpa [c1Frames] using hjn)]
  show (List.replicate 10 c1Frame)[j] = c1Frame
  exact List.getElem_replicate _ _

set_option maxRecDepth 40000 in
lemma bestScale_x_degenerate (s : ℚ → ℚ) :
    bestScaleFor s c1Frame c1Bkg 2 2 0 5 c1Vals = 0 := by
  have hk : bestScaleFor s c1Frame c1Bkg 2 2 0 5 c1Vals =
      c1Vals.getD (np_argmin (List.replicate 6 (none : PyFloat))) 0 := by
    with_unfolding_all rfl
  rw [hk]
  rfl

set_option maxRecDepth 40000 in
lemma bestScale_y_degenerate (s : ℚ → ℚ) :
    bestScaleFor s c1Frame c1Bkg 0 5 3 3 c1Vals = 0 := by
  have hk : bestScaleFor s c1Frame c1Bkg 0 5 3 3 c1Vals =
      c1Vals.getD (np_argmin (List.replicate 6 (none : PyFloat))) 0 := by
    with_unfolding_all rfl
  rw [hk]
  rfl

set_option maxRecDepth 40000 in
lemma bestScale_x_reversed (s : ℚ → ℚ) :
    bestScaleFor s c1Frame c1Bkg 3 1 0 5 c1Vals = 0 := by
  have hk : bestScaleFor s c1Frame c1Bkg 3 1 0 5 c1Vals =
      c1Vals.getD (np_argmin (List.replicate 6 (some (s 0)))) 0 := by
    with_unfolding_all rfl
  rw [hk, np_argmin_replicate_some]
  rfl

/-- Claim C3 (code evaluated at failing inputs): on malformed regions
(`x1 == x2`, `y1 == y2`, and `x1 > x2`), the scaling search performs no
validation and silently returns `ok 0` (every per-frame rms is NaN or
constant, `np.argmin` picks index 0, and `vals[0] = 0` here) instead of
raising an invalid-argument error.  The `s` argument is the abstract
`np.sqrt`; no property of it is needed.  (The shipped function additionally
raises `NameError` on every call, the wrong error class — see C10; this
theorem evaluates the body read as the docstring intends.) -/
theorem scaling_degenerate_region_silent (s : ℚ → ℚ) :
    scaling_image_regions_body s c1Frames c1Bkg 2 2 0 5 c1Vals false =
        Except.ok (none, some 0) ∧
    scaling_image_regions_body s c1Frames c1Bkg 0 5 3 3 c1Vals false =
        Except.ok (none, some 0) ∧
    scaling_image_regions_body s c1Frames c1Bkg 3 1 0 5 c1Vals false =
        Except.ok (none, some 0) := by
  refine ⟨?_, ?_, ?_⟩ <;>
    rw [scaling_body_notest, c1_map_scales]
  · rw [bestScale_x_degenerate, List.map_replicate,
      nanmedian_replicate_some _ _ (by norm_num)]
  · rw [bestScale_y_degenerate, List.map_replicate,
      nanmedian_replicate_some _ _ (by norm_num)]
  · rw [bestScale_x_reversed, List.map_replicate,
      nanmedian_replicate_some _ _ (by norm_num)]

lemma np_argmin_c1 (w x y z : ℚ) (hzy : z < y) (hyx : y < x) (hxw : x < w) :
    np_argmin [some w, some x, some y, some z, some y, some x] = 3 := by
  show firstMinIdx [w, x, y, z, y, x] = 3
  have e1 : firstMinIdx [y, x] = 0 := by
    show (if y ≤ [x].getD (firstMinIdx [x]) 0 then 0 else firstMinIdx [x] + 1) = 0
    rw [if_pos]
    exact le_of_lt hyx
  have e2 : firstMinIdx [z, y, x] = 0 := by
    show (if z ≤ [y, x].getD (firstMinIdx [y, x]) 0 then 0
      else firstMinIdx [y, x] + 1) = 0
    rw [e1]
    rw [if_pos]
    exact le_of_lt hzy
  have e3 : firstMinIdx [y, z, y, x] = 1 := by
    show (if y ≤ [z, y, x].getD (firstMinIdx [z, y, x]) 0 then 0
      else firstMinIdx [z, y, x] + 1) = 1
    rw [e2]
    show (if y ≤ z then 0 else 0 + 1) = 1
    rw [if_neg (not_le.mpr hzy)]
  have e4 : firstMinIdx [x, y, z, y, x] = 2 := by
    show (if x ≤ [y, z, y, x].getD (firstMinIdx [y, z, y, x]) 0 then 0
      else firstMinIdx [y, z, y, x] + 1) = 2
    rw [e3]
    show (if x ≤ z then 0 else 1 + 1) = 2
    rw [if_neg (not_le.mpr (hzy.trans hyx))]
  show (if w ≤ [x, y, z, y, x].getD (firstMinIdx [x, y, z, y, x]) 0 then 0
    else firstMinIdx [x, y, z, y, x] + 1) = 3
  rw [e4]
  show (if w ≤ z then 0 else 2 + 1) = 3
  rw [if_neg (not_le.mpr (hzy.trans (hyx.trans hxw)))]

set_option maxRecDepth 40000 in
lemma bestScale_c1 (s : ℚ → ℚ) (hs : ∀ a b : ℚ, 0 ≤ a → a < b → s a < s b) :
    bestScaleFor s c1Frame c1Bkg 0 5 0 5 c1Vals = 3 := by
  have hk : bestScaleFor s c1Frame c1Bkg 0 5 0 5 c1Vals =
      c1Vals.getD (np_argmin
        [some (s 9), some (s 4), some (s 1), some (s 0), some (s 1), some (s 4)]) 0 := by
    with_unfolding_all rfl
  rw [hk, np_argmin_c1 (s 9) (s 4) (s 1) (s 0)
    (hs 0 1 le_rfl (by norm_num)) (hs 1 4 (by norm_num) (by norm_num))
    (hs 4 9 (by norm_num) (by norm_num))]
  rfl

/-- Claim C1 (code evaluated at the failing input): on the spec's concrete
scenario (10 all-`3.0` 5×5 frames, all-ones background, region `(0,5,0,5)`,
grid `[0,1,2,3,4,5]`, preview disabled) the shipped function raises
`NameError` from the `integraions`/`integrations` typo instead of returning,
while the body read as the docstring intends does return exactly `3.0`.
`s` is the abstract `np.sqrt`, assumed strictly monotone on
non-negatives. -/
theorem scaling_c1_scenario (s : ℚ → ℚ) (hs : ∀ a b : ℚ, 0 ≤ a → a < b → s a < s b) :
    scaling_image_regions s c1Frames c1Bkg 0 5 0 5 c1Vals false =
        Except.error "NameError: name integrations is not defined" ∧
    scaling_image_regions_body s c1Frames c1Bkg 0 5 0 5 c1Vals false =
        Except.ok (none, some 3) := by
  refine ⟨rfl, ?_⟩
  rw [scaling_body_notest, c1_map_scales, bestScale_c1 s hs, List.map_replicate,
    nanmedian_replicate_some _ _ (by norm_num)]

theorem scaling_c1_scenario_witness :
    scaling_image_regions id c1Frames c1Bkg 0 5 0 5 c1Vals false =
        Except.error "NameError: name integrations is not defined" ∧
    scaling_image_regions_body id c1Frames c1Bkg 0 5 0 5 c1Vals false =
        Except.ok (none, some 3) :=
  scaling_c1_scenario id (fun _ _ _ hab => hab)

/-- Claim C2, amended: with the preview/test flag set and more than 5
frames, the (typo-corrected) routine computes best-fit scales only for the
first 5 frames and prints exactly those 5 values, but it returns the
NaN-median of the full `len(integrations)`-element `scaling_vals` array,
whose entries beyond the first 5 remain `0` — not the median over the first
5 frames' best-fit scales alone. -/
theorem scaling_test_preview_amended (s : ℚ → ℚ) (integraions : List Frame) (bkg : Frame)
    (x1 x2 y1 y2 : ℕ) (vals : List ℚ) (h : 5 < integraions.length) :
    scaling_image_regions_body s integraions bkg x1 x2 y1 y2 vals true =
      Except.ok (some ((List.range 5).map
          (fun j => bestScaleFor s (integraions.getD j []) bkg x1 x2 y1 y2 vals)),
        nanmedian ((((List.range 5).map
          (fun j => bestScaleFor s (integraions.getD j []) bkg x1 x2 y1 y2 vals)) ++
          List.replicate (integraions.length - 5) 0).map some)) :=
  scaling_body_test s integraions bkg x1 x2 y1 y2 vals (le_of_lt h)

theorem scaling_test_preview_amended_witness :
    scaling_image_regions_body id c1Frames c1Bkg 0 5 0 5 c1Vals true =
      Except.ok (some ((List.range 5).map
          (fun j => bestScaleFor id (c1Frames.getD j []) c1Bkg 0 5 0 5 c1Vals)),
        nanmedian ((((List.range 5).map
          (fun j => bestScaleFor id (c1Frames.getD j []) c1Bkg 0 5 0 5 c1Vals)) ++
          List.replicate (c1Frames.length - 5) 0).map some)) :=
  scaling_test_preview_amended id c1Frames c1Bkg 0 5 0 5 c1Vals (by norm_num [c1Frames])

set_option maxRecDepth 100000 in
set_option maxHeartbeats 2000000 in
/-- Counterexample to claim C2 as stated: on the 10-frame all-`3.0`
scenario with the test flag set, the shipped function raises `NameError`
rather than returning anything; and even the typo-corrected body returns
`1.5`, the median of `[3,3,3,3,3,0,0,0,0,0]`, while the median over the
first 5 frames' best-fit scales is `3` — and `3/2 ≠ 3`. -/
theorem scaling_test_preview_counterexample :
    scaling_image_regions id c1Frames c1Bkg 0 5 0 5 c1Vals true =
        Except.error "NameError: name integrations is not defined" ∧
    scaling_image_regions_body id c1Frames c1Bkg 0 5 0 5 c1Vals true =
        Except.ok (some [3, 3, 3, 3, 3], some (3/2)) ∧
    nanmedian ([3, 3, 3, 3, 3].map some) = some 3 ∧
    ((3 : ℚ)/2 ≠ 3) := by
  refine ⟨rfl, by with_unfolding_all rfl, by with_unfolding_all rfl, by norm_num⟩

lemma except_bind_ok {α β : Type} (a : α) (f : α → Except String β) :
    (Except.ok a >>= f) = f a := rfl

lemma getD_map_none (g : ExoRow → PyFloat) (l : List ExoRow) (i : ℕ)
    (hi : i < l.length) : (l.map g).getD i none = g l[i] := by
  rw [List.getD_eq_getElem _ _ (by simpa using hi)]
  simp

lemma addRowsFrom_toTable (r : List ExoRow) (o : ℤ) :
    addRowsFrom (toTable r) o =
      Except.ok (r.map (fun x => ⟨x.wave, x.waveMin, x.yval, x.yerrLow, o⟩)) := by
  cases r with
  | nil => rfl
  | cons a t =>
    refine Eq.trans (rfl :
      _ = Except.ok ((List.range (numRows (toTable (a :: t)))).map (fun i =>
        (⟨((a :: t).map (fun x => x.wave)).getD i none,
         ((a :: t).map (fun x => x.waveMin)).getD i none,
         ((a :: t).map (fun x => x.yval)).getD i none,
         ((a :: t).map (fun x => x.yerrLow)).getD i none, o⟩ : ErsRow)))) ?_
    congr 1
    rw [show numRows (toTable (a :: t)) = (a :: t).length by
      simp [toTable, numRows]]
    apply List.ext_getElem
    · simp
    · intro i h1 h2
      have hi : i < (a :: t).length := by simpa using h2
      simp only [List.getElem_map, List.getElem_range]
      rw [getD_map_none _ _ _ hi, getD_map_none _ _ _ hi,
        getD_map_none _ _ _ hi, getD_map_none _ _ _ hi]

lemma maskFilter_map (p : ExoRow → Bool) (g : ExoRow → PyFloat) (l : List ExoRow) :
    maskFilter (l.map p) (l.map g) = (l.filter p).map g := by
  induction l with
  | nil => rfl
  | cons a t ih =>
    simp only [List.map_cons, maskFilter, List.zip_cons_cons,
      List.filterMap_cons, List.filter_cons] at *
    cases hpa : p a <;> simp [hpa, ih]

lemma filterTable_toTable (r : List ExoRow) (q : PyFloat → Bool) :
    filterTable (toTable r) ((r.map (fun x => x.wave)).map q) =
      toTable (r.filter (fun x => q x.wave)) := by
  have hmask : (r.map (fun x => x.wave)).map q = r.map (fun x => q x.wave) := by
    rw [List.map_map]
    rfl
  rw [hmask]
  simp only [filterTable, toTable, List.map_cons, List.map_nil]
  rw [maskFilter_map, maskFilter_map, maskFilter_map, maskFilter_map]

/-- Claim C4: for every pair of input tables with the expected columns,
the table `exotep_to_ers_format` returns has row count equal to
(rows of table 1) + (rows of table 2 with `wave` strictly below `0.9`),
its `order` column is `1` on every row coming from the first table and `2`
on every row coming from the second. -/
theorem exotep_row_count_and_orders (r1 r2 : List ExoRow) :
    ∃ rows, exotep_to_ers_format (toTable r1) (toTable r2) = Except.ok rows ∧
      rows.length =
        r1.length + (r2.filter (fun x => qfLtC x.wave (9/10))).length ∧
      (∀ row ∈ rows.take r1.length, row.order = 1) ∧
      (∀ row ∈ rows.drop r1.length, row.order = 2) := by
  refine ⟨(r1.map (fun x => ⟨x.wave, x.waveMin, x.yval, x.yerrLow, (1 : ℤ)⟩)) ++
    ((r2.filter (fun x => qfLtC x.wave (9/10))).map
      (fun x => ⟨x.wave, x.waveMin, x.yval, x.yerrLow, (2 : ℤ)⟩)), ?_, ?_, ?_, ?_⟩
  · show (addRowsFrom (toTable r1) 1 >>= fun rows1 =>
      getCol (toTable r2) "wave" >>= fun w2 =>
      addRowsFrom (filterTable (toTable r2)
        (w2.map (fun x => qfLtC x (9/10)))) 2 >>= fun rows2 =>
      Except.ok (rows1 ++ rows2)) = _
    rw [addRowsFrom_toTable, except_bind_ok]
    rw [show getCol (toTable r2) "wave" = Except.ok (r2.map (fun x => x.wave))
      from rfl, except_bind_ok]
    rw [filterTable_toTable, addRowsFrom_toTable, except_bind_ok]
  · simp
  · rw [List.take_left' (by simp)]
    intro row hrow
    obtain ⟨x, _, rfl⟩ := List.mem_map.mp hrow
    rfl
  · rw [List.drop_left' (by simp)]
    intro row hrow
    obtain ⟨x, _, rfl⟩ := List.mem_map.mp hrow
    rfl

lemma nansum_replicate_some (m : ℕ) (c : ℚ) :
    nansum (List.replicate m (some c)) = some (m * c) := by
  unfold nansum
  rw [filterMap_id_replicate_some]
  congr 1
  rw [List.sum_replicate]
  simp [nsmul_eq_mul]

lemma selectChannels_lt_length (w : List PyFloat) (v : List (List PyFloat))
    (center : ℚ) : ∀ i ∈ selectChannels w v center, i < w.length := by
  intro i hi
  exact List.mem_range.mp (List.mem_of_mem_filter hi)

lemma specOf_const (w : List PyFloat) (v : List (List PyFloat))
    (center c : ℚ) (nt : ℕ) :
    specOf w (List.replicate nt (List.replicate w.length (some c))) v center =
      List.replicate nt
        (some ((selectChannels w v center).length * c / 1000000)) := by
  unfold specOf
  rw [List.map_replicate]
  congr 1
  have hinner : (selectChannels w v center).map
      (fun i => (List.replicate w.length (some c)).getD i none) =
      List.replicate (selectChannels w v center).length (some c) := by
    apply List.eq_replicate_iff.mpr
    refine ⟨by simp, ?_⟩
    intro b hb
    obtain ⟨i, hi, rfl⟩ := List.mem_map.mp hb
    rw [List.getD_eq_getElem _ _
      (by simpa using selectChannels_lt_length w v center i hi)]
    exact List.getElem_replicate _ _
  rw [hinner, nansum_replicate_some]
  show qfDiv _ _ = _
  rw [qfDiv]
  norm_num

lemma transitCurve_series_const (s : ℚ → ℚ) (w : List PyFloat)
    (v : List (List PyFloat)) (tind : ℕ) (center offset c : ℚ) (nt : ℕ)
    (hq : selectChannels w v center ≠ []) (hc : c ≠ 0) (hnt : 0 < nt) :
    (transitCurveFor s w (List.replicate nt (List.replicate w.length (some c)))
        v tind center offset).series =
      List.replicate nt (some (1 - offset)) := by
  have hane : ((selectChannels w v center).length : ℚ) * c / 1000000 ≠ 0 := by
    apply div_ne_zero
    · exact mul_ne_zero
        (Nat.cast_ne_zero.mpr (fun h => hq (List.length_eq_zero.mp h))) hc
    · norm_num
  show ((specOf w (List.replicate nt (List.replicate w.length (some c))) v
      center).map (fun x => qfDiv x (nanmedian (specOf w
        (List.replicate nt (List.replicate w.length (some c))) v center)))).map
      (fun x => qfSub x (some offset)) = _
  rw [specOf_const, nanmedian_replicate_some _ _ hnt, List.map_replicate,
    List.map_replicate]
  congr 1
  rw [qfDiv, if_neg hane, div_self hane]
  rfl

lemma stackedLoop_proj (s : ℚ → ℚ) (w : List PyFloat)
    (v : List (List PyFloat)) (dlt : ℚ) (tind : ℕ) (c : ℚ) (nt : ℕ)
    (hc : c ≠ 0) (hnt : 0 < nt) :
    ∀ (centers : List ℚ) (offset : ℚ),
      (∀ center ∈ centers, selectChannels w v center ≠ []) →
      (stackedLoop s w (List.replicate nt (List.replicate w.length (some c)))
          v dlt tind centers offset).map (fun t => (t.series, t.offsetUsed)) =
        (List.range centers.length).map (fun (k : ℕ) =>
          (List.replicate nt (some (1 - (offset - (k : ℚ) * dlt))),
            offset - (k : ℚ) * dlt)) := by
  intro centers
  induction centers with
  | nil => intro offset _; rfl
  | cons c0 rest ih =>
    intro offset h
    rw [stackedLoop, List.map_cons]
    show ((transitCurveFor s w
        (List.replicate nt (List.replicate w.length (some c))) v tind c0
        offset).series,
      (transitCurveFor s w
        (List.replicate nt (List.replicate w.length (some c))) v tind c0
        offset).offsetUsed) :: _ = _
    rw [transitCurve_series_const s w v tind c0 offset c nt
      (h c0 (List.mem_cons_self _ _)) hc hnt]
    rw [show (transitCurveFor s w
        (List.replicate nt (List.replicate w.length (some c))) v tind c0
        offset).offsetUsed = offset from rfl]
    rw [ih (offset - dlt) (fun m hm => h m (List.mem_cons_of_mem _ hm))]
    rw [List.length_cons, List.range_succ_eq_map, List.map_cons, List.map_map]
    congr 1
    · norm_num
    · apply List.map_congr_left
      intro k _
      show (List.replicate nt (some (1 - ((offset - dlt) - (k : ℚ) * dlt))),
          (offset - dlt) - (k : ℚ) * dlt) =
        (List.replicate nt (some (1 - (offset - ((k + 1 : ℕ) : ℚ) * dlt))),
          offset - ((k + 1 : ℕ) : ℚ) * dlt)
      have harith : (offset - dlt) - (k : ℚ) * dlt =
          offset - ((k + 1 : ℕ) : ℚ) * dlt := by
        push_cast
        ring
      rw [harith]

/-- Claim C7: for a flux array constant (non-zero) across channels and
time, with every requested center selecting at least one channel that
passes the `1e7` noise threshold, each plotted series after normalization
is flat at `1.0` minus its assigned offset, and across the list of centers
the assigned offsets run `offset, offset - delta, offset - 2*delta, ...`:
evenly spaced by `offset_delta` and strictly decreasing when
`offset_delta > 0`. -/
theorem stacked_transits_flat_and_offsets (s : ℚ → ℚ) (time w : List PyFloat)
    (v : List (List PyFloat)) (centers : List ℚ) (offset dlt c : ℚ)
    (nt tind : ℕ) (hnt : 0 < nt) (hc : c ≠ 0) (hdlt : 0 < dlt)
    (hq : ∀ center ∈ centers, selectChannels w v center ≠ []) :
    (stacked_transits s time w
        (List.replicate nt (List.replicate w.length (some c))) v centers
        offset dlt tind).map (fun t => (t.series, t.offsetUsed)) =
      (List.range centers.length).map (fun (k : ℕ) =>
        (List.replicate nt (some (1 - (offset - (k : ℚ) * dlt))),
          offset - (k : ℚ) * dlt)) ∧
    (∀ k : ℕ, k + 1 < centers.length →
      ((stacked_transits s time w
          (List.replicate nt (List.replicate w.length (some c))) v centers
          offset dlt tind).map (fun t => t.offsetUsed)).getD (k + 1) 0 =
        ((stacked_transits s time w
          (List.replicate nt (List.replicate w.length (some c))) v centers
          offset dlt tind).map (fun t => t.offsetUsed)).getD k 0 - dlt ∧
      ((stacked_transits s time w
          (List.replicate nt (List.replicate w.length (some c))) v centers
          offset dlt tind).map (fun t => t.offsetUsed)).getD (k + 1) 0 <
        ((stacked_transits s time w
          (List.replicate nt (List.replicate w.length (some c))) v centers
          offset dlt tind).map (fun t => t.offsetUsed)).getD k 0) := by
  have hmain : (stacked_transits s time w
      (List.replicate nt (List.replicate w.length (some c))) v centers
      offset dlt tind).map (fun t => (t.series, t.offsetUsed)) =
      (List.range centers.length).map (fun (k : ℕ) =>
        (List.replicate nt (some (1 - (offset - (k : ℚ) * dlt))),
          offset - (k : ℚ) * dlt)) :=
    stackedLoop_proj s w v dlt tind c nt hc hnt centers offset hq
  refine ⟨hmain, ?_⟩
  have hoff : (stacked_transits s time w
      (List.replicate nt (List.replicate w.length (some c))) v centers
      offset dlt tind).map (fun t => t.offsetUsed) =
      (List.range centers.length).map
        (fun (k : ℕ) => offset - (k : ℚ) * dlt) := by
    have hcomp : (stacked_transits s time w
        (List.replicate nt (List.replicate w.length (some c))) v centers
        offset dlt tind).map (fun t => t.offsetUsed) =
        ((stacked_transits s time w
          (List.replicate nt (List.replicate w.length (some c))) v centers
          offset dlt tind).map (fun t => (t.series, t.offsetUsed))).map
            (fun p => p.2) := by
      rw [List.map_map]
      rfl
    rw [hcomp, hmain, List.map_map]
    rfl
  intro k hk
  have hgd : ∀ m : ℕ, m < centers.length →
      ((stacked_transits s time w
        (List.replicate nt (List.replicate w.length (some c))) v centers
        offset dlt tind).map (fun t => t.offsetUsed)).getD m 0 =
      offset - (m : ℚ) * dlt := by
    intro m hm
    rw [hoff, List.getD_eq_getElem _ _ (by simpa using hm)]
    simp
  have hk1 : k < centers.length := Nat.lt_of_succ_lt hk
  rw [hgd (k + 1) hk, hgd k hk1]
  constructor
  · push_cast
    ring
  · have harith : offset - ((k + 1 : ℕ) : ℚ) * dlt =
        offset - (k : ℚ) * dlt - dlt := by
      push_cast
      ring
    rw [harith]
    exact sub_lt_self _ hdlt

theorem stacked_transits_flat_and_offsets_witness :
    (stacked_transits id [some 0] [some 1]
        (List.replicate 1 (List.replicate (List.length [some (1 : ℚ)])
          (some 2))) [[some 1]] [1] (1/20) (1/200) 0).map
        (fun t => (t.series, t.offsetUsed)) =
      (List.range (List.length [(1 : ℚ)])).map (fun (k : ℕ) =>
        (List.replicate 1 (some (1 - (1/20 - (k : ℚ) * (1/200)))),
          1/20 - (k : ℚ) * (1/200))) ∧
    (∀ k : ℕ, k + 1 < List.length [(1 : ℚ)] →
      ((stacked_transits id [some 0] [some 1]
          (List.replicate 1 (List.replicate (List.length [some (1 : ℚ)])
            (some 2))) [[some 1]] [1] (1/20) (1/200) 0).map
          (fun t => t.offsetUsed)).getD (k + 1) 0 =
        ((stacked_transits id [some 0] [some 1]
          (List.replicate 1 (List.replicate (List.length [some (1 : ℚ)])
            (some 2))) [[some 1]] [1] (1/20) (1/200) 0).map
          (fun t => t.offsetUsed)).getD k 0 - 1/200 ∧
      ((stacked_transits id [some 0] [some 1]
          (List.replicate 1 (List.replicate (List.length [some (1 : ℚ)])
            (some 2))) [[some 1]] [1] (1/20) (1/200) 0).map
          (fun t => t.offsetUsed)).getD (k + 1) 0 <
        ((stacked_transits id [some 0] [some 1]
          (List.replicate 1 (List.replicate (List.length [some (1 : ℚ)])
            (some 2))) [[some 1]] [1] (1/20) (1/200) 0).map
          (fun t => t.offsetUsed)).getD k 0) := by
  apply stacked_transits_flat_and_offsets id [some 0] [some 1] [[some 1]] [1] (1/20) (1/200) 2 1 0
    (by norm_num) (by norm_num) (by norm_num)
  intro center hcen
  have hc1 : center = 1 := by simpa using hcen
  subst hc1
  rw [show selectChannels [some 1] [[some 1]] 1 = [0] by with_unfolding_all rfl]
  simp
